import Mathlib

/-!
Shallow embedding of the authcenter backend (FastAPI + SQLAlchemy service) in
Lean 4, and theorems settling the spec claims about it.

The embedding follows the Python source:
  - `app/models/user.py`    : `UserRole`, `UserStatus`, `User`, `User.can_login`
  - `app/core/security.py`  : `verify_password`, `create_access_token`,
                              `OAuth2PasswordBearerWithCookie`, `get_current_user`
  - `app/api/v1/endpoints/auth.py`  : `login`, `login_form`, `google_login`,
                                      `set_auth_cookie`
  - `app/api/v1/endpoints/users.py` : `create_user`, `update_user`, `delete_user`
  - `app/api/v1/endpoints/content.py` : `update_homepage`
  - `app/schemas/user.py`   : `validate_username` and the create-schema checks

External collaborators (the bcrypt library, the JWT library's crypto, Google's
token endpoint, the relational store) are modelled abstractly: bcrypt as a
caller-supplied `checkpw` function that may fail, a JWT as a record carrying
its payload, signing key and algorithm, the OAuth exchange as an
`Except String IdInfo` input, and the database as a `List User` with
`List.find?` standing for `.filter(...).first()`.  Timestamps are `Nat`
seconds.  The process settings object is a record of the fields
`app/core/settings.py` declares, and Python attribute access on it is
modelled by name: the source reads `settings.ENVIRONMENT` (auth.py), but the
pydantic-v2 `Settings` model declares only lowercase `environment` and
`extra="ignore"` adds no attributes, so that read raises AttributeError.
The embedding propagates it faithfully: `set_auth_cookie` fails, the plain
login handlers end in an uncaught-exception crash (FastAPI answers 500),
and inside `google_login`'s `try` the same exception is captured by
`except Exception` and rendered into the 400 f-string.
-/

/-- Roles from `app/models/user.py` (`UserRole`, a closed Python enum whose
values are the lowercase strings "admin", "manager", "user", "viewer"). -/
inductive UserRole where
  | ADMIN
  | MANAGER
  | USER
  | VIEWER
deriving DecidableEq, Repr

/-- The `.value` string of each `UserRole` member, as in the Python enum. -/
def UserRole.value : UserRole → String
  | .ADMIN => "admin"
  | .MANAGER => "manager"
  | .USER => "user"
  | .VIEWER => "viewer"

/-- Account statuses from `app/models/user.py` (`UserStatus`). -/
inductive UserStatus where
  | ACTIVE
  | INACTIVE
  | SUSPENDED
  | PENDING
deriving DecidableEq, Repr

/-- The persisted user record (`app/models/user.py`, class `User`; the id,
a UUID in the source, is an opaque `Nat` here). -/
structure User where
  id : Nat
  username : String
  email : String
  password_hash : String
  full_name : String
  role : UserRole
  status : UserStatus
  is_active : Bool
  is_locked : Bool
  last_login : Option Nat
deriving DecidableEq, Repr

/-- `User.can_login` from `app/models/user.py`: "Determina si el usuario puede
iniciar sesión. Considera estado, activación y bloqueo." -/
def User.can_login (u : User) : Bool :=
  u.is_active && u.status == UserStatus.ACTIVE && !u.is_locked

/-- `User.is_authenticated` from `app/models/user.py`. -/
def User.is_authenticated (u : User) : Bool :=
  u.is_active && u.status == UserStatus.ACTIVE

/-- The process-wide configuration (`app/core/settings.py`, class `Settings`),
restricted to the fields the embedded endpoints read. -/
structure Settings where
  environment : String
  SECRET_KEY : String
  ACCESS_TOKEN_EXPIRE_MINUTES : Nat
  ALGORITHM : String
deriving DecidableEq, Repr

/-- An HTTP error response (`fastapi.HTTPException`): status code and detail. -/
structure HTTPException where
  status_code : Nat
  detail : String
deriving DecidableEq, Repr

/-- A signed JWT (`jose.jwt.encode` output), modelled as its payload
(`sub` claim, `exp` claim) together with the signing key and algorithm;
signature verification is key-and-algorithm equality. -/
structure Token where
  sub : Option String
  exp : Nat
  key : String
  alg : String
deriving DecidableEq, Repr

/-- Failure kinds of `jose.jwt.decode`: `JWTError` for a bad signature or
algorithm, `ExpiredSignatureError` (a `JWTError` subclass) once the clock
passes the `exp` claim. -/
inductive JWTFail where
  | invalid
  | expired
deriving DecidableEq, Repr

/-- `verify_password` from `app/core/security.py`: calls `bcrypt.checkpw`
inside `try/except`, returning `False` on any library exception.  The bcrypt
library itself is external; it is passed in as `checkpw`, which either returns
the comparison outcome or fails. -/
def verify_password (checkpw : String → String → Except Unit Bool)
    (plain_password hashed_password : String) : Bool :=
  match checkpw plain_password hashed_password with
  | .ok b => b
  | .error _ => false

/-- `create_access_token` from `app/core/security.py`: payload
`{"exp": now + delta-or-default, "sub": str(subject)}`, signed with
`settings.SECRET_KEY` under `settings.ALGORITHM`.  `expires_delta` is in
seconds; the default is `ACCESS_TOKEN_EXPIRE_MINUTES` minutes. -/
def create_access_token (s : Settings) (now : Nat) (subject : Nat)
    (expires_delta : Option Nat) : Token :=
  let expire := now + expires_delta.getD (s.ACCESS_TOKEN_EXPIRE_MINUTES * 60)
  { sub := some (toString subject), exp := expire, key := s.SECRET_KEY,
    alg := s.ALGORITHM }

/-- `jose.jwt.decode(token, key, algorithms=algs)` at clock `now`: rejects a
key/algorithm mismatch as `JWTError`, an `exp` claim in the past as
`ExpiredSignatureError`, and otherwise yields the payload's `sub` claim. -/
def jwtDecode (t : Token) (key : String) (algs : List String) (now : Nat) :
    Except JWTFail (Option String) :=
  if t.key ≠ key ∨ t.alg ∉ algs then .error .invalid
  else if t.exp < now then .error .expired
  else .ok t.sub

/-- The 401 raised by `get_current_user` in `app/core/security.py`. -/
def credentials_exception : HTTPException :=
  ⟨401, "No se pudieron validar las credenciales o la sesión ha expirado"⟩

/-- `get_current_user` from `app/core/security.py`: decode the token, read the
`sub` claim, fail 401 when decoding fails or `sub` is `None`, then look the
user up by id and fail 401 when absent. -/
def get_current_user (s : Settings) (db : List User) (token : Token)
    (now : Nat) : Except HTTPException User :=
  match jwtDecode token s.SECRET_KEY [s.ALGORITHM] now with
  | .error _ => .error credentials_exception
  | .ok none => .error credentials_exception
  | .ok (some user_id) =>
    match db.find? (fun u => toString u.id == user_id) with
    | none => .error credentials_exception
    | some u => .ok u

/-- Decidable equality for `Except` results, for concrete evaluations. -/
instance {ε α : Type} [DecidableEq ε] [DecidableEq α] :
    DecidableEq (Except ε α) := fun a b =>
  match a, b with
  | .error e, .error f =>
    if h : e = f then isTrue (h ▸ rfl)
    else isFalse (fun hc => h (Except.error.inj hc))
  | .ok x, .ok y =>
    if h : x = y then isTrue (h ▸ rfl)
    else isFalse (fun hc => h (Except.ok.inj hc))
  | .error _, .ok _ => isFalse (fun hc => Except.noConfusion hc)
  | .ok _, .error _ => isFalse (fun hc => Except.noConfusion hc)

/-- Python's `str.lower()` (ASCII lowering, character by character). -/
def lowerString (s : String) : String := ⟨s.data.map Char.toLower⟩

/-- Python's `str.partition(" ")` on the character list, as used by FastAPI's
`get_authorization_scheme_param`: everything before the first space, and
everything after it. -/
def splitCharsAtSpace : List Char → (List Char × List Char)
  | [] => ([], [])
  | c :: cs =>
    if c = ' ' then ([], cs)
    else
      let r := splitCharsAtSpace cs
      (c :: r.1, r.2)

/-- Python's `str.partition(" ")` as a pair (scheme, parameter). -/
def splitFirstSpace (s : String) : String × String :=
  let r := splitCharsAtSpace s.data
  (⟨r.1⟩, ⟨r.2⟩)

/-- `fastapi.security.OAuth2PasswordBearer.__call__` with `auto_error=True`:
read the `Authorization` header, split scheme from parameter, and fail 401
unless the header is non-empty (Python truthiness) with scheme `bearer`
case-insensitively. -/
def oauth2PasswordBearerCall (authorization : Option String) :
    Except Nat String :=
  match authorization with
  | none => .error 401
  | some h =>
    let p := splitFirstSpace h
    if h = "" ∨ lowerString p.1 ≠ "bearer" then .error 401
    else .ok p.2

/-- `OAuth2PasswordBearerWithCookie.__call__` from `app/core/security.py`:
`token = request.cookies.get("access_token")`; `if not token:` fall back to
the parent class's header logic.  `not token` is Python falsiness: true for
a missing cookie and for an empty-string cookie alike. -/
def oauth2SchemeCall (cookie : Option String) (authorization : Option String) :
    Except Nat String :=
  let token := cookie
  if token = none ∨ token = some "" then oauth2PasswordBearerCall authorization
  else .ok (token.getD "")

/-- A `Set-Cookie` produced by `response.set_cookie`; the value is the
serialized token. -/
structure CookieSet where
  key : String
  value : Token
  httponly : Bool
  secure : Bool
  samesite : String
  max_age : Nat
  path : String
deriving DecidableEq, Repr

/-- Python's message for a failed attribute lookup on the settings object,
as `str()` of the raised AttributeError renders it. -/
def attributeErrorMsg (name : String) : String :=
  "'Settings' object has no attribute '" ++ name ++ "'"

/-- Python attribute access `settings.<name>` for the string-typed fields of
the pydantic-v2 `Settings` model: only the declared attribute names exist
(`extra="ignore"` adds none, and env-var case-insensitivity does not rename
attributes), so any other name raises AttributeError. -/
def Settings.getattrStr (s : Settings) (name : String) :
    Except String String :=
  if name = "environment" then .ok s.environment
  else if name = "SECRET_KEY" then .ok s.SECRET_KEY
  else if name = "ALGORITHM" then .ok s.ALGORITHM
  else .error (attributeErrorMsg name)

/-- `set_auth_cookie` from `app/api/v1/endpoints/auth.py`: cookie named
`access_token`, httpOnly, Secure only in production, SameSite `lax` outside
production and `none` in production, max-age matching the token TTL.  Its
first line reads `settings.ENVIRONMENT`; the `Settings` model declares only
lowercase `environment`, so the access raises AttributeError and no cookie
is ever produced. -/
def set_auth_cookie (s : Settings) (access_token : Token) :
    Except String CookieSet :=
  match s.getattrStr "ENVIRONMENT" with
  | .error e => .error e
  | .ok env =>
    let is_prod := env == "production"
    .ok { key := "access_token", value := access_token, httponly := true,
          secure := is_prod, samesite := if ¬is_prod then "lax" else "none",
          max_age := s.ACCESS_TOKEN_EXPIRE_MINUTES * 60, path := "/" }

/-- The outcome of a FastAPI request handler: a 200 body, a raised
`HTTPException`, or an uncaught Python exception, which FastAPI surfaces as
a plain 500 response. -/
inductive HandlerResult (α : Type) where
  | ok (a : α)
  | http (e : HTTPException)
  | crash (exc : String)
deriving DecidableEq, Repr

/-- The body of a successful login (`UserLoginResponse` in
`app/schemas/user.py`) together with the session cookie the handler sets. -/
structure LoginResponse where
  access_token : Token
  token_type : String
  expires_in : Nat
  user : User
  cookie : CookieSet
deriving DecidableEq, Repr

/-- In-place mutation of the first record with the given id, as SQLAlchemy's
`.filter(User.id == uid).first()` followed by attribute assignment and
`commit` does (ids are unique in the store). -/
def updateById (db : List User) (uid : Nat) (f : User → User) : List User :=
  match db with
  | [] => []
  | u :: rest =>
    if u.id == uid then f u :: rest else u :: updateById rest uid f

/-- `login` (POST /auth/login) from `app/api/v1/endpoints/auth.py`: find the
user by username OR email, 401 unless found and the password verifies, 403
when `is_active` is false, else stamp `last_login` and commit, issue a
token, then call `set_auth_cookie`.  The handler checks only `is_active`
(neither `status` nor `is_locked` is consulted), and `set_auth_cookie`
raises AttributeError, so the final return is unreachable: the request ends
as an uncaught-exception 500 after the commit. -/
def login (checkpw : String → String → Except Unit Bool) (s : Settings)
    (db : List User) (username password : String) (now : Nat) :
    HandlerResult (List User × LoginResponse) :=
  match db.find? (fun u => u.username == username || u.email == username) with
  | none => .http ⟨401, "Credenciales incorrectas"⟩
  | some user =>
    if verify_password checkpw password user.password_hash = false then
      .http ⟨401, "Credenciales incorrectas"⟩
    else if user.is_active = false then
      .http ⟨403, "Cuenta inactiva"⟩
    else
      let user2 := { user with last_login := some now }
      let db2 := updateById db user.id (fun _ => user2)
      let tok := create_access_token s now user.id none
      match set_auth_cookie s tok with
      | .error e => .crash e
      | .ok cookie =>
        .ok (db2,
          { access_token := tok, token_type := "bearer",
            expires_in := s.ACCESS_TOKEN_EXPIRE_MINUTES * 60, user := user2,
            cookie := cookie })

/-- `login_form` (POST /auth/login-form) from `app/api/v1/endpoints/auth.py`:
find the user by username only, 401 unless found and the password verifies,
then issue a token and call `set_auth_cookie`.  No activity/status/lock
gate and no `last_login` update appear in this handler, and
`set_auth_cookie` raises AttributeError, so the final return is
unreachable: every correct-password request ends as an uncaught-exception
500. -/
def login_form (checkpw : String → String → Except Unit Bool) (s : Settings)
    (db : List User) (username password : String) (now : Nat) :
    HandlerResult LoginResponse :=
  match db.find? (fun u => u.username == username) with
  | none => .http ⟨401, "Credenciales incorrectas"⟩
  | some user =>
    if verify_password checkpw password user.password_hash = false then
      .http ⟨401, "Credenciales incorrectas"⟩
    else
      let tok := create_access_token s now user.id none
      match set_auth_cookie s tok with
      | .error e => .crash e
      | .ok cookie =>
        .ok { access_token := tok, token_type := "bearer",
              expires_in := s.ACCESS_TOKEN_EXPIRE_MINUTES * 60, user := user,
              cookie := cookie }

/-- The verified identity assertion extracted by
`google.oauth2.id_token.verify_oauth2_token` (its `email` and `name` claims). -/
structure IdInfo where
  email : Option String
  name : Option String
deriving DecidableEq, Repr

/-- The account `google_login` provisions when no user holds the verified
email: username is the email's local part, full name defaults to it,
`password_hash` is the sentinel string `"google-oauth-managed"`, role USER,
status ACTIVE, active, not locked. -/
def provisionGoogleUser (id_info : IdInfo) (email : String) (newId : Nat) :
    User :=
  let username_suggested : String := ⟨email.data.takeWhile (fun c => c ≠ '@')⟩
  { id := newId, username := username_suggested, email := email,
    full_name := id_info.name.getD username_suggested,
    password_hash := "google-oauth-managed", role := .USER,
    status := .ACTIVE, is_active := true, is_locked := false,
    last_login := none }

/-- A character allowed by the username regex `^[a-zA-Z0-9_-]+$` in
`app/schemas/user.py`. -/
def usernameChar (c : Char) : Bool :=
  ('a' ≤ c ∧ c ≤ 'z') ∨ ('A' ≤ c ∧ c ≤ 'Z') ∨ ('0' ≤ c ∧ c ≤ '9') ∨
    c = '_' ∨ c = '-'

/-- `UserBase.validate_username` from `app/schemas/user.py`: reject any
character outside `[a-zA-Z0-9_-]` (the regex needs at least one character),
then return the username lowercased. -/
def validate_username (v : String) : Except String String :=
  if ¬ (v ≠ "" ∧ v.data.all usernameChar) then
    .error "Username solo puede contener letras, números, guiones y guiones bajos"
  else .ok (lowerString v)

/-- The raw body of POST /users (`UserCreate` in `app/schemas/user.py`)
before validation. -/
structure UserCreateIn where
  username : String
  email : String
  full_name : String
  role : UserRole
  password : String
  confirm_password : String
deriving DecidableEq, Repr

/-- Pydantic validation of a `UserCreate` body: `Field` length constraints on
username, full name and password, the username charset check with
lowercasing, the password complexity checks (at least one uppercase, one
lowercase, one digit) and the password-confirmation match, in schema order. -/
def validateUserCreate (u : UserCreateIn) : Except String UserCreateIn :=
  if ¬ (3 ≤ u.username.length ∧ u.username.length ≤ 50) then
    .error "username length out of range"
  else
    match validate_username u.username with
    | .error e => .error e
    | .ok uname =>
      if ¬ (2 ≤ u.full_name.length ∧ u.full_name.length ≤ 100) then
        .error "full_name length out of range"
      else if ¬ (8 ≤ u.password.length ∧ u.password.length ≤ 128) then
        .error "password length out of range"
      else if ¬ u.password.data.any Char.isUpper then
        .error "La contraseña debe contener al menos una mayúscula"
      else if ¬ u.password.data.any Char.isLower then
        .error "La contraseña debe contener al menos una minúscula"
      else if ¬ u.password.data.any Char.isDigit then
        .error "La contraseña debe contener al menos un número"
      else if u.confirm_password ≠ u.password then
        .error "Las contraseñas no coinciden"
      else .ok { u with username := uname }

/-- `create_user` (POST /users) from `app/api/v1/endpoints/users.py`: ADMIN
only; reject an existing username, then an existing email, as 400; hash the
password (the bcrypt hashing is external, passed as `hashPw`); build the
record (model defaults: status PENDING, inactive, unlocked); flip
`is_active` when the status is ACTIVE; persist.  The caller is assumed
already resolved through `get_current_active_user`. -/
def create_user (hashPw : String → String) (db : List User)
    (current_user : User) (user_in : UserCreateIn) (newId : Nat) :
    Except HTTPException (List User × User) :=
  if current_user.role ≠ UserRole.ADMIN then
    .error ⟨403, "Permiso denegado"⟩
  else if (db.find? (fun u => u.username == user_in.username)).isSome then
    .error ⟨400, "Username ya existe"⟩
  else if (db.find? (fun u => u.email == user_in.email)).isSome then
    .error ⟨400, "Email ya existe"⟩
  else
    let user0 : User :=
      { id := newId, username := user_in.username, email := user_in.email,
        password_hash := hashPw user_in.password,
        full_name := user_in.full_name, role := user_in.role,
        status := .PENDING, is_active := false, is_locked := false,
        last_login := none }
    let user := if user0.status == UserStatus.ACTIVE then
        { user0 with is_active := true }
      else user0
    .ok (db ++ [user], user)

/-- A PUT /users/{id} patch (`UserUpdate` in `app/schemas/user.py`): all
fields optional; `none` is an unset field, so the record also models
`model_dump(exclude_unset=True)`. -/
structure UserUpdate where
  email : Option String := none
  full_name : Option String := none
  role : Option UserRole := none
  status : Option UserStatus := none
  is_active : Option Bool := none
deriving DecidableEq, Repr

/-- The non-admin stripping loop in `update_user`: pop `role`, `status` and
`is_active` from the patch. -/
def UserUpdate.stripProtected (p : UserUpdate) : UserUpdate :=
  { p with role := none, status := none, is_active := none }

/-- The `setattr` loop in `update_user`: assign each field present in the
patch onto the record. -/
def applyPatch (u : User) (p : UserUpdate) : User :=
  { u with email := p.email.getD u.email,
           full_name := p.full_name.getD u.full_name,
           role := p.role.getD u.role,
           status := p.status.getD u.status,
           is_active := p.is_active.getD u.is_active }

/-- `update_user` (PUT /users/{id}) from `app/api/v1/endpoints/users.py`:
404 when the target is absent; 403 unless the caller is ADMIN or the subject
itself; for a non-ADMIN caller the patch is stripped of `role`, `status` and
`is_active` before the `setattr` loop; commit and return the updated record. -/
def update_user (db : List User) (current_user : User) (user_id : Nat)
    (user_in : UserUpdate) : Except HTTPException (List User × User) :=
  match db.find? (fun u => u.id == user_id) with
  | none => .error ⟨404, "No encontrado"⟩
  | some user =>
    if current_user.role ≠ UserRole.ADMIN ∧ current_user.id ≠ user_id then
      .error ⟨403, "Sin permisos"⟩
    else
      let update_data :=
        if current_user.role ≠ UserRole.ADMIN then user_in.stripProtected
        else user_in
      let user2 := applyPatch user update_data
      .ok (updateById db user_id (fun _ => user2), user2)

/-- The soft-delete mutation in `delete_user`: `user.is_active = False;
user.status = UserStatus.INACTIVE`. -/
def deactivate (u : User) : User :=
  { u with is_active := false, status := UserStatus.INACTIVE }

/-- `delete_user` (DELETE /users/{id}) from `app/api/v1/endpoints/users.py`:
ADMIN only; 400 on self-delete; 404 when the target is absent; otherwise a
soft delete setting `is_active := false` and `status := INACTIVE`, retaining
the record. -/
def delete_user (db : List User) (current_user : User) (user_id : Nat) :
    Except HTTPException (List User × String) :=
  if current_user.role ≠ UserRole.ADMIN then
    .error ⟨403, "Solo admins"⟩
  else if current_user.id = user_id then
    .error ⟨400, "No puedes borrarte a ti mismo"⟩
  else
    match db.find? (fun u => u.id == user_id) with
    | none => .error ⟨404, "No encontrado"⟩
    | some _ =>
      .ok (updateById db user_id deactivate,
           "Usuario desactivado correctamente")

/-- A Python value of the two types compared in
`app/api/v1/endpoints/content.py`: a `UserRole` enum member or a `str`. -/
inductive PyVal where
  | vrole (r : UserRole)
  | vstr (s : String)
deriving DecidableEq, Repr

/-- Python `==` restricted to those two types: enum members compare by
identity with each other, strings compare by value, and an enum member never
equals a string (`enum.Enum` does not define cross-type equality). -/
def pyEq : PyVal → PyVal → Bool
  | .vrole a, .vrole b => a == b
  | .vstr a, .vstr b => a == b
  | _, _ => false

/-- `update_homepage` (POST /content/update-homepage) from
`app/api/v1/endpoints/content.py`: a caller already resolved by
`get_current_user`; the guard is `if current_user.role != "ADMIN"`, a
Python comparison of a `UserRole` member against the string `"ADMIN"`. -/
def update_homepage (current_user : User) : Except HTTPException String :=
  if ¬ pyEq (.vrole current_user.role) (.vstr "ADMIN") then
    .error ⟨403,
      "No tienes permisos de Admin. Tu hackeo de LocalStorage no funciona aquí."⟩
  else .ok "Contenido actualizado en MongoDB"

/-- A development-mode settings instance for concrete evaluations. -/
def sampleSettings : Settings :=
  { environment := "development", SECRET_KEY := "test-secret",
    ACCESS_TOKEN_EXPIRE_MINUTES := 60, ALGORITHM := "HS256" }

/-- A production-mode settings instance for concrete evaluations. -/
def prodSettings : Settings :=
  { environment := "production", SECRET_KEY := "prod-secret",
    ACCESS_TOKEN_EXPIRE_MINUTES := 60, ALGORITHM := "HS256" }

/-- A concrete bcrypt stand-in: recognizes a few well-formed stored hashes
and raises (errors) on anything else, as `bcrypt.checkpw` does on a
malformed hash. -/
def sampleCheckpw : String → String → Except Unit Bool := fun p h =>
  if h = "$2b$12$alicehash" then .ok (decide (p = "Correct1pw"))
  else if h = "$2b$12$bobhash" then .ok (decide (p = "Secret1pw"))
  else if h = "$2b$12$davehash" then .ok (decide (p = "Correct1pw"))
  else .error ()

/-- A concrete stand-in for `get_password_hash`. -/
def sampleHashPw : String → String := fun p => "$2b$12$" ++ p

/-- An active, unlocked user with status ACTIVE. -/
def sampleUser1 : User :=
  { id := 1, username := "alice", email := "alice@example.com",
    password_hash := "$2b$12$alicehash", full_name := "Alice Doe",
    role := .USER, status := .ACTIVE, is_active := true, is_locked := false,
    last_login := none }

/-- A fully deactivated user: `active=false`, status INACTIVE, locked. -/
def inactiveUser : User :=
  { id := 2, username := "bob", email := "bob@example.com",
    password_hash := "$2b$12$bobhash", full_name := "Bob Roe",
    role := .USER, status := .INACTIVE, is_active := false, is_locked := true,
    last_login := none }

/-- A user whose `is_active` flag is true but whose status is SUSPENDED. -/
def suspendedUser : User :=
  { id := 3, username := "carol", email := "carol@example.com",
    password_hash := "$2b$12$alicehash", full_name := "Carol Poe",
    role := .USER, status := .SUSPENDED, is_active := true,
    is_locked := false, last_login := none }

/-- A user whose `is_active` flag is true and status ACTIVE but who is
locked. -/
def lockedUser : User :=
  { id := 4, username := "dave", email := "dave@example.com",
    password_hash := "$2b$12$davehash", full_name := "Dave Moe",
    role := .USER, status := .ACTIVE, is_active := true, is_locked := true,
    last_login := none }

/-- A non-admin account used as a caller updating itself. -/
def sampleSelf : User :=
  { id := 5, username := "erin", email := "erin@example.com",
    password_hash := "$2b$12$erinhash", full_name := "Erin Zoe",
    role := .USER, status := .ACTIVE, is_active := true, is_locked := false,
    last_login := none }

/-- An ADMIN account used as a caller. -/
def adminUser : User :=
  { id := 9, username := "root", email := "root@example.com",
    password_hash := "$2b$12$roothash", full_name := "Root Admin",
    role := .ADMIN, status := .ACTIVE, is_active := true, is_locked := false,
    last_login := none }

/-- A patch attempting to elevate role and change the full name. -/
def samplePatch : UserUpdate :=
  { full_name := some "X", role := some .ADMIN, is_active := some false,
    status := some .SUSPENDED }

/-- Create request with a mixed-case username. -/
def sampleCreateA : UserCreateIn :=
  { username := "Alice", email := "a1@example.com", full_name := "Alice",
    role := .USER, password := "Password1", confirm_password := "Password1" }

/-- The validated form of `sampleCreateA` (username lowercased). -/
def sampleCreateAV : UserCreateIn := { sampleCreateA with username := "alice" }

/-- Create request whose username differs from `sampleCreateA` only in
case. -/
def sampleCreateB : UserCreateIn :=
  { username := "ALICE", email := "a2@example.com", full_name := "Alicia",
    role := .USER, password := "Password2", confirm_password := "Password2" }

/-- The validated form of `sampleCreateB` (username lowercased). -/
def sampleCreateBV : UserCreateIn := { sampleCreateB with username := "alice" }

/-- The record `create_user` persists for `sampleCreateAV` with id 11. -/
def sampleCreatedAlice : User :=
  { id := 11, username := "alice", email := "a1@example.com",
    password_hash := sampleHashPw "Password1", full_name := "Alice",
    role := .USER, status := .PENDING, is_active := false,
    is_locked := false, last_login := none }

/-- `google_login` (POST /auth/google) from `app/api/v1/endpoints/auth.py`.
The whole handler body sits in one `try`: the code exchange and
identity-token verification (steps delegated to Google's libraries) enter as
`exchange`; any exception `e` they raise — and any raised later in the body,
including the 400 "Token sin email" `HTTPException` and the
`settings.ENVIRONMENT` AttributeError out of `set_auth_cookie` — is caught
by `except Exception` and re-raised as a 400 whose detail is the f-string
`"Error en validación segura: {str(e)}"`, in every environment; so even a
successful exchange ends as that 400 and the final return is unreachable. -/
def google_login (s : Settings) (db : List User)
    (exchange : Except String IdInfo) (newId : Nat) (now : Nat) :
    Except HTTPException (List User × LoginResponse) :=
  match exchange with
  | .error e => .error ⟨400, "Error en validación segura: " ++ e⟩
  | .ok id_info =>
    match id_info.email with
    | none => .error ⟨400, "Error en validación segura: " ++ "400: Token sin email"⟩
    | some email =>
      let found := db.find? (fun u => u.email == email)
      let db1 := match found with
        | some _ => db
        | none => db ++ [provisionGoogleUser id_info email newId]
      let user := match found with
        | some u => u
        | none => provisionGoogleUser id_info email newId
      let user2 := { user with last_login := some now }
      let db2 := updateById db1 user.id (fun _ => user2)
      let tok := create_access_token s now user.id none
      match set_auth_cookie s tok with
      | .error e => .error ⟨400, "Error en validación segura: " ++ e⟩
      | .ok cookie =>
        .ok (db2,
          { access_token := tok, token_type := "bearer",
            expires_in := s.ACCESS_TOKEN_EXPIRE_MINUTES * 60, user := user2,
            cookie := cookie })

/-- Helper: updating the first record with a given id leaves it findable,
holding the updated value, when the update preserves the id. -/
theorem updateById_find (db : List User) (uid : Nat) (f : User → User)
    (t : User) (hfind : db.find? (fun u => u.id == uid) = some t)
    (hid : (f t).id = t.id) :
    (updateById db uid f).find? (fun u => u.id == uid) = some (f t) := by
  induction db with
  | nil => simp [List.find?] at hfind
  | cons u rest ih =>
    by_cases h : u.id = uid
    · rw [List.find?_cons_of_pos _ (by simp [h])] at hfind
      cases hfind
      simp [updateById, h, List.find?_cons_of_pos, hid]
    · rw [List.find?_cons_of_neg _ (by simp [h])] at hfind
      have hcond : (u.id == uid) = false := by simp [h]
      simp only [updateById, hcond, Bool.false_eq_true, if_false]
      rw [List.find?_cons_of_neg _ (by simp [h])]
      exact ih hfind

/-- Helper: re-applying an idempotent, id-preserving update by id is a
no-op. -/
theorem updateById_idem (db : List User) (uid : Nat) (f : User → User)
    (hid : ∀ u, (f u).id = u.id) (hff : ∀ u, f (f u) = f u) :
    updateById (updateById db uid f) uid f = updateById db uid f := by
  induction db with
  | nil => rfl
  | cons u rest ih =>
    by_cases h : u.id = uid
    · simp [updateById, h, hid, hff]
    · simp [updateById, h, ih]

/-- Helper: appending one record to a list in which a predicate finds
nothing makes that record the first find when it satisfies the predicate. -/
theorem find_append_single (l : List User) (p : User → Bool) (x : User)
    (h : l.find? p = none) (hx : p x = true) :
    (l ++ [x]).find? p = some x := by
  induction l with
  | nil => simp [List.find?, hx]
  | cons u rest ih =>
    by_cases hu : p u
    · rw [List.find?_cons_of_pos _ hu] at h
      cases h
    · rw [List.find?_cons_of_neg _ (by simpa using hu)] at h
      rw [List.cons_append, List.find?_cons_of_neg _ (by simpa using hu)]
      exact ih h

/-- C10: for every resolved caller, whatever their role — ADMIN included —
POST /content/update-homepage answers 403: the guard compares the caller's
`UserRole` enum member against the string "ADMIN", which no member ever
equals, so the success branch is unreachable. -/
theorem update_homepage_always_403 (u : User) :
    update_homepage u =
      .error ⟨403,
        "No tienes permisos de Admin. Tu hackeo de LocalStorage no funciona aquí."⟩ := by
  simp [update_homepage, pyEq]

/-- C7: `verify_password` resolves every internal bcrypt error to `false`
(it never propagates the exception), so in particular no plaintext ever
verifies against a stored hash on which bcrypt always raises, such as the
OAuth sentinel "google-oauth-managed". -/
theorem verify_password_error_is_false
    (checkpw : String → String → Except Unit Bool) (plain hash : String)
    (hsent : ∀ p, checkpw p "google-oauth-managed" = .error ()) :
    (∀ e, checkpw plain hash = .error e →
      verify_password checkpw plain hash = false) ∧
    verify_password checkpw plain "google-oauth-managed" = false := by
  constructor
  · intro e he
    simp [verify_password, he]
  · simp [verify_password, hsent plain]

/-- Witness for C7 at a concrete always-raising bcrypt and concrete
plaintext. -/
theorem verify_password_error_is_false_witness :
    verify_password (fun _ _ => .error ()) "AnyPass1" "google-oauth-managed"
      = false :=
  (verify_password_error_is_false (fun _ _ => .error ()) "AnyPass1"
    "$2b$12$alicehash" (fun _ => rfl)).2

/-- C5: a token issued for subject `id` decodes back to `str(id)` (and the
identity dependency resolves it to the stored user) at any clock not past
its expiry, and decoding fails with the expiry-kind failure once the clock
passes issuance time plus TTL. -/
theorem token_round_trip (s : Settings) (db : List User) (u : User)
    (now now2 : Nat)
    (hfind : db.find? (fun x => toString x.id == toString u.id) = some u) :
    (now2 ≤ (create_access_token s now u.id none).exp →
      jwtDecode (create_access_token s now u.id none) s.SECRET_KEY
          [s.ALGORITHM] now2 = .ok (some (toString u.id)) ∧
      get_current_user s db (create_access_token s now u.id none) now2
          = .ok u) ∧
    ((create_access_token s now u.id none).exp < now2 →
      jwtDecode (create_access_token s now u.id none) s.SECRET_KEY
          [s.ALGORITHM] now2 = .error .expired) := by
  constructor
  · intro h
    have hne : ¬ now + s.ACCESS_TOKEN_EXPIRE_MINUTES * 60 < now2 := by
      simpa [create_access_token] using Nat.not_lt.mpr h
    have hdec : jwtDecode (create_access_token s now u.id none) s.SECRET_KEY
        [s.ALGORITHM] now2 = .ok (some (toString u.id)) := by
      simp [jwtDecode, create_access_token, hne]
    refine ⟨hdec, ?_⟩
    simp [get_current_user, hdec, hfind]
  · intro h
    have hlt : now + s.ACCESS_TOKEN_EXPIRE_MINUTES * 60 < now2 := by
      simpa [create_access_token] using h
    simp [jwtDecode, create_access_token, hlt]

/-- Witness for C5: a concrete issue/verify round trip at issuance time, and
the expiry failure well past the TTL. -/
theorem token_round_trip_witness :
    get_current_user sampleSettings [sampleUser1]
        (create_access_token sampleSettings 1000 1 none) 1000 =
      .ok sampleUser1 ∧
    jwtDecode (create_access_token sampleSettings 1000 1 none)
        sampleSettings.SECRET_KEY [sampleSettings.ALGORITHM] 5000 =
      .error .expired := by
  constructor
  · exact ((token_round_trip sampleSettings [sampleUser1] sampleUser1 1000
      1000 (by decide)).1 (by decide)).2
  · exact (token_round_trip sampleSettings [sampleUser1] sampleUser1 1000
      5000 (by decide)).2 (by decide)

/-- C6 (amended): the resolver reads the `access_token` cookie first; a
non-empty cookie wins regardless of any header; the Bearer-header fallback
runs exactly when the cookie is absent OR holds the empty string (Python
falsiness of `not token`); when neither channel yields a token the request
fails 401. -/
theorem token_lookup_order (c h : Option String) (t : String) :
    (c = some t → t ≠ "" → oauth2SchemeCall c h = .ok t) ∧
    ((c = none ∨ c = some "") →
      oauth2SchemeCall c h = oauth2PasswordBearerCall h) ∧
    oauth2SchemeCall none none = .error 401 ∧
    oauth2SchemeCall (some "") none = .error 401 := by
  refine ⟨?_, ?_, rfl, rfl⟩
  · rintro rfl ht
    simp [oauth2SchemeCall, ht]
  · rintro (rfl | rfl) <;> rfl

/-- Witness for C6's amended statement: a concrete non-empty cookie beats a
present Bearer header, and the empty channels give 401. -/
theorem token_lookup_order_witness :
    oauth2SchemeCall (some "cookietok") (some "Bearer headertok")
      = .ok "cookietok" ∧
    oauth2SchemeCall none none = .error 401 := by
  refine ⟨?_, (token_lookup_order none none "x").2.2.1⟩
  exact (token_lookup_order (some "cookietok") (some "Bearer headertok")
    "cookietok").1 rfl (by decide)

/-- C6 (counterexample to the claim as stated): an `access_token` cookie
that is present but empty is not absent, yet the resolver still falls back
to the Authorization header and returns the header token instead of the
cookie's value. -/
theorem cookie_empty_still_falls_back :
    (some "" : Option String) ≠ none ∧
    oauth2SchemeCall (some "") (some "Bearer headertok") = .ok "headertok" ∧
    oauth2SchemeCall (some "") (some "Bearer headertok")
      ≠ .ok ("" : String) := by
  refine ⟨by decide, ?_, ?_⟩ <;> decide

/-- C1 (failing-input evaluation): POST /auth/login consults only
`is_active`.  An account with `active=false` is rejected 403, as the claim
expects; but a SUSPENDED-but-active account and a locked-but-active account
with correct passwords — both rejected by `User.can_login` — pass every
check in the handler and the request then dies on the `settings.ENVIRONMENT`
AttributeError inside `set_auth_cookie` (an uncaught exception, surfaced as
500), not with the claimed 401/403 activity rejection. -/
theorem login_ignores_status_and_lock :
    User.can_login suspendedUser = false ∧
    User.can_login lockedUser = false ∧
    login sampleCheckpw sampleSettings [suspendedUser] "carol" "Correct1pw"
        1000 = .crash (attributeErrorMsg "ENVIRONMENT") ∧
    login sampleCheckpw sampleSettings [lockedUser] "dave" "Correct1pw"
        1000 = .crash (attributeErrorMsg "ENVIRONMENT") ∧
    login sampleCheckpw sampleSettings [inactiveUser] "bob" "Secret1pw"
        1000 = .http ⟨403, "Cuenta inactiva"⟩ := by
  refine ⟨rfl, rfl, ?_, ?_, ?_⟩ <;> decide

/-- C2 (counterexample to the claim as stated): at the claim's own input —
an account with `active=false` (here also status INACTIVE and locked) whose
stored hash verifies the supplied password — POST /auth/login-form does not
succeed: no activity gate fires, password verification and token issuance
are passed, and the handler then crashes on the `settings.ENVIRONMENT`
AttributeError inside `set_auth_cookie`, so no 200, no token body and no
cookie are produced. -/
theorem login_form_inactive_crashes :
    inactiveUser.is_active = false ∧
    verify_password sampleCheckpw "Secret1pw" inactiveUser.password_hash
      = true ∧
    login_form sampleCheckpw sampleSettings [inactiveUser] "bob" "Secret1pw"
        1000 = .crash (attributeErrorMsg "ENVIRONMENT") := by
  refine ⟨rfl, ?_, ?_⟩ <;> decide

/-- C2 (amended): POST /auth/login-form applies no activity gate — for
every stored account whose hash verifies the supplied password, whatever
its `is_active`, `status` or `is_locked`, the handler never answers 401/403
for inactivity: it reaches token issuance and then crashes with the
`settings.ENVIRONMENT` AttributeError out of `set_auth_cookie` (surfaced as
500), so it also never returns 200 or sets the cookie. -/
theorem login_form_no_gate_crashes_at_cookie
    (checkpw : String → String → Except Unit Bool) (s : Settings)
    (db : List User) (username password : String) (now : Nat) (user : User)
    (hfind : db.find? (fun u => u.username == username) = some user)
    (hpw : verify_password checkpw password user.password_hash = true) :
    login_form checkpw s db username password now =
      .crash (attributeErrorMsg "ENVIRONMENT") := by
  have henv : ∀ t : Token,
      set_auth_cookie s t = .error (attributeErrorMsg "ENVIRONMENT") :=
    fun _ => rfl
  simp [login_form, hfind, hpw, henv]

/-- Witness for C2's amended statement: a locked account with a correct
password is not gated either; the request ends in the same crash. -/
theorem login_form_no_gate_crashes_at_cookie_witness :
    login_form sampleCheckpw sampleSettings [lockedUser] "dave" "Correct1pw"
        1000 = .crash (attributeErrorMsg "ENVIRONMENT") :=
  login_form_no_gate_crashes_at_cookie sampleCheckpw sampleSettings
    [lockedUser] "dave" "Correct1pw" 1000 lockedUser (by decide) (by decide)

/-- C3 (counterexample to the claim as stated): in a production deployment,
an OAuth exchange failure carrying provider-internal exception text is
echoed verbatim into the 400 response detail. -/
theorem google_login_prod_echoes_detail :
    prodSettings.environment = "production" ∧
    google_login prodSettings [] (.error "invalid_grant: provider internals")
        1 1000 =
      .error ⟨400, "Error en validación segura: " ++
        "invalid_grant: provider internals"⟩ := ⟨rfl, rfl⟩

/-- C3 (amended): every failure of the OAuth code exchange or
identity-token verification collapses to a single 400 outcome, but its
detail is the f-string `"Error en validación segura: {str(e)}"` — the
underlying exception text is included in every environment, production
included. -/
theorem google_login_single_400_echoes (s : Settings) (db : List User)
    (e : String) (newId now : Nat) :
    google_login s db (.error e) newId now =
      .error ⟨400, "Error en validación segura: " ++ e⟩ := rfl

/-- C4: PUT /users/{id} called by a non-ADMIN caller who is the subject
itself succeeds, leaves `role`, `status` and `is_active` of the target
unchanged (the protected fields are silently dropped from the patch), and
applies every other present field (`full_name`, `email`). -/
theorem update_user_nonadmin_strips (db : List User) (caller target : User)
    (user_id : Nat) (patch : UserUpdate)
    (hfind : db.find? (fun u => u.id == user_id) = some target)
    (hrole : caller.role ≠ UserRole.ADMIN) (hself : caller.id = user_id) :
    ∃ db2 u2, update_user db caller user_id patch = .ok (db2, u2) ∧
      u2.role = target.role ∧ u2.status = target.status ∧
      u2.is_active = target.is_active ∧
      u2.full_name = patch.full_name.getD target.full_name ∧
      u2.email = patch.email.getD target.email := by
  refine ⟨updateById db user_id
      (fun _ => applyPatch target patch.stripProtected),
    applyPatch target patch.stripProtected, ?_, ?_, ?_, ?_, ?_, ?_⟩
  · simp [update_user, hfind, hrole, hself]
  · simp [applyPatch, UserUpdate.stripProtected]
  · simp [applyPatch, UserUpdate.stripProtected]
  · simp [applyPatch, UserUpdate.stripProtected]
  · simp [applyPatch, UserUpdate.stripProtected]
  · simp [applyPatch, UserUpdate.stripProtected]

/-- Witness for C4: the non-admin subject `sampleSelf` patches itself with
`samplePatch` (which tries `role := ADMIN`, `is_active := false`,
`status := SUSPENDED` and `full_name := "X"`); only `full_name` changes. -/
theorem update_user_nonadmin_strips_witness :
    ∃ db2 u2, update_user [sampleSelf] sampleSelf 5 samplePatch =
        .ok (db2, u2) ∧
      u2.role = sampleSelf.role ∧ u2.status = sampleSelf.status ∧
      u2.is_active = sampleSelf.is_active ∧
      u2.full_name = samplePatch.full_name.getD sampleSelf.full_name ∧
      u2.email = samplePatch.email.getD sampleSelf.email :=
  update_user_nonadmin_strips [sampleSelf] sampleSelf sampleSelf 5
    samplePatch (by decide) (by decide) rfl

/-- C8: DELETE /users/{id} by an ADMIN on a non-self existing target
succeeds, and applying it a second time succeeds again with the very same
terminal store: the record is retained (not NotFound) with `active=false`
and status INACTIVE. -/
theorem delete_user_idempotent (db : List User) (caller target : User)
    (uid : Nat) (hadmin : caller.role = UserRole.ADMIN)
    (hself : caller.id ≠ uid)
    (hfind : db.find? (fun u => u.id == uid) = some target) :
    ∃ db1, delete_user db caller uid =
        .ok (db1, "Usuario desactivado correctamente") ∧
      delete_user db1 caller uid =
        .ok (db1, "Usuario desactivado correctamente") ∧
      db1.find? (fun u => u.id == uid) = some (deactivate target) := by
  have hrole : ¬ caller.role ≠ UserRole.ADMIN := by simp [hadmin]
  have hid : ∀ u : User, (deactivate u).id = u.id := fun _ => rfl
  have hff : ∀ u : User, deactivate (deactivate u) = deactivate u :=
    fun _ => rfl
  have hfind1 := updateById_find db uid deactivate target hfind (hid target)
  refine ⟨updateById db uid deactivate, ?_, ?_, hfind1⟩
  · simp [delete_user, hrole, hself, hfind]
  · simp [delete_user, hrole, hself, hfind1,
      updateById_idem db uid deactivate hid hff]

/-- Witness for C8: the ADMIN deactivates `sampleUser1` twice; the second
call succeeds on the same terminal store. -/
theorem delete_user_idempotent_witness :
    ∃ db1, delete_user [sampleUser1] adminUser 1 =
        .ok (db1, "Usuario desactivado correctamente") ∧
      delete_user db1 adminUser 1 =
        .ok (db1, "Usuario desactivado correctamente") ∧
      db1.find? (fun u => u.id == 1) = some (deactivate sampleUser1) :=
  delete_user_idempotent [sampleUser1] adminUser sampleUser1 1 rfl
    (by decide) (by decide)

/-- Helper: a create body accepted by the schema validation keeps every
field as submitted except the username, which is lowercased at the input
boundary. -/
theorem validateUserCreate_fields (a v : UserCreateIn)
    (h : validateUserCreate a = .ok v) :
    v.username = lowerString a.username ∧ v.email = a.email := by
  unfold validateUserCreate at h
  split at h
  · exact Except.noConfusion h
  · split at h
    · exact Except.noConfusion h
    · rename_i uname heq
      split at h
      · exact Except.noConfusion h
      · split at h
        · exact Except.noConfusion h
        · split at h
          · exact Except.noConfusion h
          · split at h
            · exact Except.noConfusion h
            · split at h
              · exact Except.noConfusion h
              · split at h
                · exact Except.noConfusion h
                · have huname : lowerString a.username = uname := by
                    unfold validate_username at heq
                    split at heq
                    · exact Except.noConfusion heq
                    · exact Except.ok.inj heq
                  have hv := Except.ok.inj h
                  subst hv
                  exact ⟨huname.symm, rfl⟩

/-- C9: two POST /users requests whose usernames differ only in letter case
collide: both are lowercased by the schema validator, so after the first
create succeeds the second fails with the username Conflict. -/
theorem create_user_case_insensitive_conflict (hashPw : String → String)
    (db db1 : List User) (caller : User) (a b va vb : UserCreateIn)
    (id1 id2 : Nat) (w : User)
    (hva : validateUserCreate a = .ok va)
    (hvb : validateUserCreate b = .ok vb)
    (hcase : lowerString a.username = lowerString b.username)
    (h1 : create_user hashPw db caller va id1 = .ok (db1, w)) :
    create_user hashPw db1 caller vb id2 =
      .error ⟨400, "Username ya existe"⟩ := by
  have hbv : vb.username = va.username := by
    rw [(validateUserCreate_fields b vb hvb).1,
        (validateUserCreate_fields a va hva).1]
    exact hcase.symm
  unfold create_user at h1
  by_cases hrole : caller.role ≠ UserRole.ADMIN
  · rw [if_pos hrole] at h1
    exact Except.noConfusion h1
  rw [if_neg hrole] at h1
  by_cases hname :
      (db.find? fun x => x.username == va.username).isSome = true
  · rw [if_pos hname] at h1
    exact Except.noConfusion h1
  rw [if_neg hname] at h1
  by_cases hemail : (db.find? fun x => x.email == va.email).isSome = true
  · rw [if_pos hemail] at h1
    exact Except.noConfusion h1
  rw [if_neg hemail] at h1
  simp only [] at h1
  rw [if_neg (by simp)] at h1
  obtain ⟨hdb1, hw⟩ := Prod.mk.injEq .. ▸ Except.ok.inj h1
  have hnone : (db.find? fun x => x.username == va.username) = none := by
    cases hopt : db.find? fun x => x.username == va.username with
    | none => rfl
    | some z => rw [hopt] at hname; simp at hname
  unfold create_user
  rw [if_neg hrole]
  have hfound :
      (db1.find? fun x => x.username == vb.username).isSome = true := by
    simp only [hbv]
    rw [← hdb1]
    rw [find_append_single db _ _ hnone (by simp)]
    rfl
  rw [if_pos hfound]

/-- Witness for C9: "Alice" then "ALICE" both validate to username "alice";
creating the first on an empty store succeeds, and the second create then
fails with the username Conflict. -/
theorem create_user_case_insensitive_conflict_witness :
    create_user sampleHashPw [sampleCreatedAlice] adminUser sampleCreateBV
        12 = .error ⟨400, "Username ya existe"⟩ :=
  create_user_case_insensitive_conflict sampleHashPw [] [sampleCreatedAlice]
    adminUser sampleCreateA sampleCreateB sampleCreateAV sampleCreateBV 11 12
    sampleCreatedAlice (by decide) (by decide) (by decide) (by decide)
